import Mathlib

/-! A verification development for the `telegram` package: the data model
declared in types.go, together with the decode/normalize engine that the
package's specification describes for these types.  The structures below
mirror the Go declarations field for field (Go `int64` is embedded as `Int`,
`string` as `String`, `bool` as `Bool`; the declared Go widths themselves are
recorded in the declaration tables).  The repository currently contains the
type declarations only, so every decode/encode/resolve function is modelled
from the specification and marked as such in its doc comment. -/

namespace Telegram

/-- Declared numeric fields of the Go package, as pairs of
(qualified field name, declared Go type name), transcribed from types.go. -/
def numericFieldDecls : List (String × String) :=
  [("User.ID", "int64"),
   ("Chat.ID", "int64"),
   ("MessageID.MessageID", "int64"),
   ("InaccessibleMessage.MessageID", "int64"),
   ("InaccessibleMessage.Date", "int64"),
   ("MessageEntity.Offset", "int64"),
   ("MessageEntity.Length", "int64"),
   ("TextQuote.Position", "int64"),
   ("ReplyParameters.MessageID", "int64"),
   ("ReplyParameters.QuotePosition", "Integer"),
   ("MessageOriginUser.Date", "int64"),
   ("MessageOriginHiddenUser.Date", "int64")]

/-- Fields of the Go package that hold protocol identifiers, as pairs of
(qualified field name, declared Go type name), transcribed from types.go.
`ReplyParameters.ChatID` is declared `string` in the source (the source
comment reads "Should be Int or String, but Golang doesn't have union /
For now we use string"). -/
def idFieldDecls : List (String × String) :=
  [("User.ID", "int64"),
   ("Chat.ID", "int64"),
   ("MessageID.MessageID", "int64"),
   ("InaccessibleMessage.MessageID", "int64"),
   ("ReplyParameters.MessageID", "int64"),
   ("ReplyParameters.ChatID", "string")]

/-- Type names defined by the `telegram` package itself in types.go. -/
def packageDefinedTypes : List String :=
  ["User", "Chat", "MessageID", "InaccessibleMessage", "MessageEntity",
   "TextQuote", "ReplyParameters", "MessageOriginUser", "MessageOriginHiddenUser"]

/-- Predeclared (built-in) Go type names, none of which is `Integer`. -/
def goPredeclaredTypes : List String :=
  ["bool", "string", "int", "int8", "int16", "int32", "int64",
   "uint", "uint8", "uint16", "uint32", "uint64", "uintptr",
   "byte", "rune", "float32", "float64", "complex64", "complex128",
   "error", "any", "comparable"]

/-- The struct `User` of types.go: a user or a bot.  Fields past `FirstName`
are marked `[Optional]` in the source and are declared there as plain `string`
or `bool` values (not pointers), so absence has no representation of its own. -/
structure User where
  ID : Int
  IsBot : Bool
  FirstName : String
  LastName : String
  Username : String
  LanguageCode : String
  IsPremium : Bool
  AddedToAttachmentMenu : Bool
  CanJoinGroups : Bool
  CanReadAllGroupMessages : Bool
  SupportsInlineQueries : Bool
  CanConnectToBusiness : Bool
  HasMainWebApp : Bool
  deriving DecidableEq

/-- The struct `Chat` of types.go.  The source field `Type` is embedded as
`Type'` because `Type` is reserved in Lean. -/
structure Chat where
  ID : Int
  Type' : String
  Title : String
  Username : String
  FirstName : String
  LastName : String
  IsForum : Bool
  deriving DecidableEq

/-- The struct `MessageID` of types.go. -/
structure MessageID where
  MessageID : Int
  deriving DecidableEq

/-- The struct `InaccessibleMessage` of types.go. -/
structure InaccessibleMessage where
  Chat : Chat
  MessageID : Int
  Date : Int
  deriving DecidableEq

/-- The struct `MessageEntity` of types.go.  `URL`, `User`, `Language` and
`CustomEmojiID` are the variant-only payload fields. -/
structure MessageEntity where
  Type' : String
  Offset : Int
  Length : Int
  URL : String
  User : User
  Language : String
  CustomEmojiID : String
  deriving DecidableEq

/-- The struct `TextQuote` of types.go. -/
structure TextQuote where
  Text : String
  Entities : List MessageEntity
  Position : Int
  IsManual : Bool
  deriving DecidableEq

/-- The struct `ReplyParameters` of types.go.  `ChatID` is declared `string`
in the source.  The source declares `QuotePosition` with the type name
`Integer`, which is defined nowhere in the package; here that one field is
modelled from the spec (a UTF-16 code-unit position) as an integer. -/
structure ReplyParameters where
  MessageID : Int
  ChatID : String
  AllowSendingWithoutReply : Bool
  Quote : String
  QuoteParseMode : String
  QuoteEntities : List MessageEntity
  QuotePosition : Int
  deriving DecidableEq

/-- The struct `MessageOriginUser` of types.go. -/
structure MessageOriginUser where
  Type' : String
  Date : Int
  SenderUser : User
  deriving DecidableEq

/-- The struct `MessageOriginHiddenUser` of types.go.  The source names the
last field `SendUserName` (sic). -/
structure MessageOriginHiddenUser where
  Type' : String
  Date : Int
  SendUserName : String
  deriving DecidableEq

/-- Modelled from the spec: the MessageOrigin union (types.go only lists the
variants in a comment; the Chat and Channel variants are absent from the
source and are flagged as an open question by the spec, so the union here has
the two declared variants). -/
inductive MessageOrigin where
  | user (m : MessageOriginUser)
  | hiddenUser (m : MessageOriginHiddenUser)
  deriving DecidableEq

/-- Modelled from the spec: the error taxonomy of the decode engine. -/
inductive DecodeError where
  | MissingRequiredField (field : String)
  | TypeMismatch (field : String)
  | UnknownVariant (raw : String)
  | MissingDiscriminator
  | EntitySpanOutOfRange (index : Nat)
  | MisplacedEntityField (field : String)
  | QuoteTooLong
  | InconsistentQuotePosition
  | ClosedSetViolation (field : String) (raw : String)
  deriving DecidableEq

/-- Modelled from the spec: a raw wire object for `User`; every wire field is
a lookup result, present-with-value or not-present. -/
structure WireUser where
  id : Option Int
  is_bot : Option Bool
  first_name : Option String
  last_name : Option String
  username : Option String
  language_code : Option String
  is_premium : Option Bool
  added_to_attachment_menu : Option Bool
  can_join_groups : Option Bool
  can_read_all_group_messages : Option Bool
  supports_inline_queries : Option Bool
  can_connect_to_business : Option Bool
  has_main_web_app : Option Bool
  deriving DecidableEq

/-- Modelled from the spec: a raw wire object for `Chat`. -/
structure WireChat where
  id : Option Int
  type : Option String
  title : Option String
  username : Option String
  first_name : Option String
  last_name : Option String
  is_forum : Option Bool
  deriving DecidableEq

/-- Modelled from the spec: a raw wire object for `MessageID`. -/
structure WireMessageID where
  message_id : Option Int
  deriving DecidableEq

/-- Modelled from the spec: a raw wire object for `InaccessibleMessage`, also
the wire shape the MaybeInaccessibleMessage resolver inspects. -/
structure WireInaccessibleMessage where
  chat : Option WireChat
  message_id : Option Int
  date : Option Int
  deriving DecidableEq

/-- Modelled from the spec: a raw wire object for `MessageEntity`. -/
structure WireMessageEntity where
  type : Option String
  offset : Option Int
  length : Option Int
  url : Option String
  user : Option WireUser
  language : Option String
  custom_emoji_id : Option String
  deriving DecidableEq

/-- Modelled from the spec: a raw wire object for `TextQuote`. -/
structure WireTextQuote where
  text : Option String
  entities : Option (List WireMessageEntity)
  position : Option Int
  is_manual : Option Bool
  deriving DecidableEq

/-- Modelled from the spec: a raw wire object for `ReplyParameters`. -/
structure WireReplyParameters where
  message_id : Option Int
  chat_id : Option String
  allow_sending_without_reply : Option Bool
  quote : Option String
  quote_parse_mode : Option String
  quote_entities : Option (List WireMessageEntity)
  quote_position : Option Int
  deriving DecidableEq

/-- Modelled from the spec: a raw wire object for the MessageOrigin union. -/
structure WireMessageOrigin where
  type : Option String
  date : Option Int
  sender_user : Option WireUser
  sender_user_name : Option String
  deriving DecidableEq

/-- Modelled from the spec: reading a required wire field; absence is a
`MissingRequiredField` decode error. -/
def req (field : String) : Option α → Except DecodeError α
  | none => .error (.MissingRequiredField field)
  | some v => .ok v

/-- Modelled from the spec: fail with the given error when the condition
holds, succeed otherwise. -/
def failIf (e : DecodeError) (p : Prop) [Decidable p] : Except DecodeError Unit :=
  if p then .error e else .ok ()

/-- Modelled from the spec: the outbound builder's optional-field convention,
omitting a field that holds its zero value so that decode and encode apply
identical conventions. -/
def omitEmpty [DecidableEq α] (z v : α) : Option α :=
  if v = z then none else some v

/-- The zero value of the Go struct `User`: every field at its Go zero. -/
def zeroUser : User :=
  ⟨0, false, "", "", "", "", false, false, false, false, false, false, false⟩

/-- The closed set of `Chat.Type` values listed in types.go. -/
def chatTypes : List String :=
  ["private", "group", "supergroup", "channel"]

/-- The closed set of `MessageEntity.Type` values listed in types.go. -/
def entityTypes : List String :=
  ["mention", "hashtag", "cashtag", "bot_command", "url", "email",
   "phone_number", "bold", "italic", "underline", "strikethrough", "spoiler",
   "blockquote", "expandable_blockquote", "code", "pre", "text_link",
   "text_mention", "custom_emoji"]

/-- Modelled from the spec: the decoder for `User` (the repository has the
struct declaration only).  Required fields error when absent; optional fields
collapse absence to the Go zero value, the only state the declared plain
field types can hold. -/
def decodeUser (w : WireUser) : Except DecodeError User := do
  let id ← req "id" w.id
  let isBot ← req "is_bot" w.is_bot
  let firstName ← req "first_name" w.first_name
  Except.ok ⟨id, isBot, firstName, w.last_name.getD "", w.username.getD "",
    w.language_code.getD "", w.is_premium.getD false,
    w.added_to_attachment_menu.getD false, w.can_join_groups.getD false,
    w.can_read_all_group_messages.getD false,
    w.supports_inline_queries.getD false,
    w.can_connect_to_business.getD false, w.has_main_web_app.getD false⟩

/-- Modelled from the spec: the outbound encoder for `User`. -/
def encodeUser (u : User) : WireUser :=
  ⟨some u.ID, some u.IsBot, some u.FirstName, omitEmpty "" u.LastName,
   omitEmpty "" u.Username, omitEmpty "" u.LanguageCode,
   omitEmpty false u.IsPremium, omitEmpty false u.AddedToAttachmentMenu,
   omitEmpty false u.CanJoinGroups, omitEmpty false u.CanReadAllGroupMessages,
   omitEmpty false u.SupportsInlineQueries,
   omitEmpty false u.CanConnectToBusiness, omitEmpty false u.HasMainWebApp⟩

/-- Modelled from the spec: the decoder for `Chat`; the discriminating `type`
field is read first and must lie in the closed set, any other value is a
`ClosedSetViolation`. -/
def decodeChat (w : WireChat) : Except DecodeError Chat := do
  let t ← req "type" w.type
  if t ∈ chatTypes then
    let id ← req "id" w.id
    Except.ok ⟨id, t, w.title.getD "", w.username.getD "", w.first_name.getD "",
      w.last_name.getD "", w.is_forum.getD false⟩
  else
    Except.error (.ClosedSetViolation "type" t)

/-- Modelled from the spec: the outbound encoder for `Chat`. -/
def encodeChat (c : Chat) : WireChat :=
  ⟨some c.ID, some c.Type', omitEmpty "" c.Title, omitEmpty "" c.Username,
   omitEmpty "" c.FirstName, omitEmpty "" c.LastName, omitEmpty false c.IsForum⟩

/-- Modelled from the spec: the decoder for `MessageID`. -/
def decodeMessageID (w : WireMessageID) : Except DecodeError MessageID := do
  let mid ← req "message_id" w.message_id
  Except.ok ⟨mid⟩

/-- Modelled from the spec: the outbound encoder for `MessageID`. -/
def encodeMessageID (m : MessageID) : WireMessageID :=
  ⟨some m.MessageID⟩

/-- Modelled from the spec: the decoder for `InaccessibleMessage`. -/
def decodeInaccessibleMessage (w : WireInaccessibleMessage) :
    Except DecodeError InaccessibleMessage := do
  let wc ← req "chat" w.chat
  let c ← decodeChat wc
  let mid ← req "message_id" w.message_id
  let d ← req "date" w.date
  Except.ok ⟨c, mid, d⟩

/-- Modelled from the spec: the outbound encoder for `InaccessibleMessage`. -/
def encodeInaccessibleMessage (im : InaccessibleMessage) : WireInaccessibleMessage :=
  ⟨some (encodeChat im.Chat), some im.MessageID, some im.Date⟩

/-- Modelled from the spec: decoding a variant-only string payload field of a
`MessageEntity`; presence alongside an inapplicable `type` is a
`MisplacedEntityField` error, never silently dropped. -/
def payloadField (fld : String) (t applicable : String) :
    Option String → Except DecodeError String
  | none => .ok ""
  | some s => if t = applicable then .ok s else .error (.MisplacedEntityField fld)

/-- Modelled from the spec: decoding the `user` payload field of a
`MessageEntity`, applicable to the `text_mention` type only. -/
def payloadUser (t : String) : Option WireUser → Except DecodeError User
  | none => .ok zeroUser
  | some wu =>
      if t = "text_mention" then decodeUser wu
      else .error (.MisplacedEntityField "user")

/-- Modelled from the spec: the decoder for `MessageEntity`; the `type`
discriminator is read first and checked against the closed set, then the
variant-only payload fields are decoded conditionally on `type`. -/
def decodeMessageEntity (w : WireMessageEntity) : Except DecodeError MessageEntity := do
  let t ← req "type" w.type
  let _ ← failIf (.ClosedSetViolation "type" t) (t ∉ entityTypes)
  let o ← req "offset" w.offset
  let l ← req "length" w.length
  let url ← payloadField "url" t "text_link" w.url
  let usr ← payloadUser t w.user
  let lang ← payloadField "language" t "pre" w.language
  let emoji ← payloadField "custom_emoji_id" t "custom_emoji" w.custom_emoji_id
  Except.ok ⟨t, o, l, url, usr, lang, emoji⟩

/-- Modelled from the spec: the outbound encoder for `MessageEntity`. -/
def encodeMessageEntity (e : MessageEntity) : WireMessageEntity :=
  ⟨some e.Type', some e.Offset, some e.Length, omitEmpty "" e.URL,
   (omitEmpty zeroUser e.User).map encodeUser, omitEmpty "" e.Language,
   omitEmpty "" e.CustomEmojiID⟩

/-- Modelled from the spec: decoding an ordered sequence of entities,
preserving order and surfacing the first child error. -/
def decodeEntities : List WireMessageEntity → Except DecodeError (List MessageEntity)
  | [] => .ok []
  | w :: ws => do
      let e ← decodeMessageEntity w
      let es ← decodeEntities ws
      Except.ok (e :: es)

/-- Modelled from the spec: the length bound the entity graph assembler
enforces on a quote text, `QuoteTooLong` past 1024 characters. -/
def quoteLengthCheck (t : String) : Except DecodeError Unit :=
  failIf .QuoteTooLong (1024 < t.length)

/-- Modelled from the spec: the decoder and assembler for `TextQuote`; the
quote length bound is checked on the decoded text before the entities. -/
def decodeTextQuote (w : WireTextQuote) : Except DecodeError TextQuote := do
  let t ← req "text" w.text
  let _ ← quoteLengthCheck t
  let es ← (match w.entities with
    | none => Except.ok []
    | some ws => decodeEntities ws)
  let p ← req "position" w.position
  Except.ok ⟨t, es, p, w.is_manual.getD false⟩

/-- Modelled from the spec: the outbound encoder for `TextQuote`. -/
def encodeTextQuote (q : TextQuote) : WireTextQuote :=
  ⟨some q.Text,
   (if q.Entities = [] then none else some (q.Entities.map encodeMessageEntity)),
   some q.Position, omitEmpty false q.IsManual⟩

/-- Modelled from the spec: the decoder for `ReplyParameters`. -/
def decodeReplyParameters (w : WireReplyParameters) :
    Except DecodeError ReplyParameters := do
  let mid ← req "message_id" w.message_id
  let es ← (match w.quote_entities with
    | none => Except.ok []
    | some ws => decodeEntities ws)
  Except.ok ⟨mid, w.chat_id.getD "", w.allow_sending_without_reply.getD false,
    w.quote.getD "", w.quote_parse_mode.getD "", es, w.quote_position.getD 0⟩

/-- Modelled from the spec: the outbound encoder for `ReplyParameters`. -/
def encodeReplyParameters (rp : ReplyParameters) : WireReplyParameters :=
  ⟨some rp.MessageID, omitEmpty "" rp.ChatID,
   omitEmpty false rp.AllowSendingWithoutReply, omitEmpty "" rp.Quote,
   omitEmpty "" rp.QuoteParseMode,
   (if rp.QuoteEntities = [] then none
    else some (rp.QuoteEntities.map encodeMessageEntity)),
   omitEmpty 0 rp.QuotePosition⟩

/-- Modelled from the spec: the union resolver for MessageOrigin.  An unknown
discriminator fails with `UnknownVariant` carrying the raw string; a missing
discriminator fails with `MissingDiscriminator`; no guessing or defaulting. -/
def decodeMessageOrigin (w : WireMessageOrigin) : Except DecodeError MessageOrigin :=
  match w.type with
  | none => .error .MissingDiscriminator
  | some t =>
      if t = "user" then do
        let d ← req "date" w.date
        let wu ← req "sender_user" w.sender_user
        let u ← decodeUser wu
        Except.ok (.user ⟨t, d, u⟩)
      else if t = "hidden_user" then do
        let d ← req "date" w.date
        let n ← req "sender_user_name" w.sender_user_name
        Except.ok (.hiddenUser ⟨t, d, n⟩)
      else .error (.UnknownVariant t)

/-- Modelled from the spec: the outbound encoder for the MessageOrigin union. -/
def encodeMessageOrigin : MessageOrigin → WireMessageOrigin
  | .user m => ⟨some m.Type', some m.Date, some (encodeUser m.SenderUser), none⟩
  | .hiddenUser m => ⟨some m.Type', some m.Date, none, some m.SendUserName⟩

/-- Modelled from the spec: the variant a MaybeInaccessibleMessage payload
resolves to.  The live `Message` struct is absent from the source (an open
question the spec flags), so the live branch is a bare tag here. -/
inductive MaybeVariant where
  | inaccessibleMessage
  | message
  deriving DecidableEq

/-- Modelled from the spec: the structural union resolver for
MaybeInaccessibleMessage.  The decoded `date` field is the structural
discriminator: exactly zero resolves to InaccessibleMessage, anything else to
the live-message variant; a missing `date` is a `MissingDiscriminator`. -/
def resolveMaybeInaccessible (w : WireInaccessibleMessage) :
    Except DecodeError MaybeVariant :=
  match w.date with
  | none => .error .MissingDiscriminator
  | some d => if d = 0 then .ok .inaccessibleMessage else .ok .message

/-- Modelled from the spec: UTF-16 code-unit length of a text, the protocol's
counting convention (a scalar value above U+FFFF counts as two units). -/
def utf16Length (s : String) : Nat :=
  (s.data.map fun c => if c.val < 65536 then 1 else 2).sum

/-- Modelled from the spec: the text-entity resolver's span validation.  The
running index names the offending entity on failure. -/
def checkEntitySpans (textLen : Int) : Nat → List MessageEntity → Except DecodeError Unit
  | _, [] => .ok ()
  | i, e :: es =>
      if 0 ≤ e.Offset ∧ e.Offset + e.Length ≤ textLen then
        checkEntitySpans textLen (i + 1) es
      else .error (.EntitySpanOutOfRange i)

/-- Modelled from the spec: the text-entity resolver, validating every span
against the UTF-16 length of the message text. -/
def resolveEntities (text : String) (es : List MessageEntity) : Except DecodeError Unit :=
  checkEntitySpans (utf16Length text) 0 es

/-- A `MessageEntity` value satisfying the model invariants of the spec: the
type lies in the closed set and each variant-only payload field is at its Go
zero unless the type it is reserved for is the entity's type. -/
def ValidEntity (e : MessageEntity) : Prop :=
  e.Type' ∈ entityTypes ∧
  (e.URL ≠ "" → e.Type' = "text_link") ∧
  (e.User ≠ zeroUser → e.Type' = "text_mention") ∧
  (e.Language ≠ "" → e.Type' = "pre") ∧
  (e.CustomEmojiID ≠ "" → e.Type' = "custom_emoji")

instance instDecidableValidEntity (e : MessageEntity) : Decidable (ValidEntity e) := by
  unfold ValidEntity
  infer_instance

/-- A `TextQuote` value satisfying the model invariants of the spec. -/
def ValidTextQuote (q : TextQuote) : Prop :=
  q.Text.length ≤ 1024 ∧ ∀ e ∈ q.Entities, ValidEntity e

instance instDecidableValidTextQuote (q : TextQuote) : Decidable (ValidTextQuote q) := by
  unfold ValidTextQuote
  infer_instance

/-- A MessageOrigin value whose stored `Type` field matches its variant, as
the source comments require ("always user", "always hidden_user"). -/
def ValidMessageOrigin : MessageOrigin → Prop
  | .user m => m.Type' = "user"
  | .hiddenUser m => m.Type' = "hidden_user"

instance instDecidableValidMessageOrigin (mo : MessageOrigin) :
    Decidable (ValidMessageOrigin mo) := by
  cases mo <;> unfold ValidMessageOrigin <;> infer_instance

theorem ok_bind {α β : Type} (a : α) (f : α → Except DecodeError β) :
    ((Except.ok a : Except DecodeError α) >>= f) = f a := rfl

theorem error_bind {α β : Type} (e : DecodeError) (f : α → Except DecodeError β) :
    ((Except.error e : Except DecodeError α) >>= f) = Except.error e := rfl

theorem getD_omitEmpty {α : Type} [DecidableEq α] (z v : α) :
    (omitEmpty z v).getD z = v := by
  unfold omitEmpty
  split <;> simp_all

theorem decodeUser_encodeUser (u : User) : decodeUser (encodeUser u) = .ok u := by
  simp [decodeUser, encodeUser, req, ok_bind, getD_omitEmpty]

theorem decodeChat_encodeChat (c : Chat) (h : c.Type' ∈ chatTypes) :
    decodeChat (encodeChat c) = .ok c := by
  simp [decodeChat, encodeChat, req, ok_bind, getD_omitEmpty, h]

theorem decodeMessageID_encodeMessageID (m : MessageID) :
    decodeMessageID (encodeMessageID m) = .ok m := by
  simp [decodeMessageID, encodeMessageID, req, ok_bind]

theorem decodeIM_encodeIM (im : InaccessibleMessage) (h : im.Chat.Type' ∈ chatTypes) :
    decodeInaccessibleMessage (encodeInaccessibleMessage im) = .ok im := by
  simp [decodeInaccessibleMessage, encodeInaccessibleMessage, req, ok_bind,
    decodeChat_encodeChat im.Chat h]

theorem payloadField_omit (fld t app v : String) (hv : v ≠ "" → t = app) :
    payloadField fld t app (omitEmpty "" v) = .ok v := by
  by_cases h : v = ""
  · subst h
    simp [omitEmpty, payloadField]
  · simp [omitEmpty, h, payloadField, hv h]

theorem payloadUser_omit (t : String) (u : User) (hu : u ≠ zeroUser → t = "text_mention") :
    payloadUser t ((omitEmpty zeroUser u).map encodeUser) = .ok u := by
  by_cases h : u = zeroUser
  · subst h
    simp [omitEmpty, payloadUser]
  · simp [omitEmpty, h, payloadUser, hu h, decodeUser_encodeUser]

theorem decodeEntity_encodeEntity (e : MessageEntity) (h : ValidEntity e) :
    decodeMessageEntity (encodeMessageEntity e) = .ok e := by
  obtain ⟨h1, h2, h3, h4, h5⟩ := h
  simp [decodeMessageEntity, encodeMessageEntity, req, ok_bind, failIf, h1,
    payloadField_omit "url" e.Type' "text_link" e.URL h2,
    payloadUser_omit e.Type' e.User h3,
    payloadField_omit "language" e.Type' "pre" e.Language h4,
    payloadField_omit "custom_emoji_id" e.Type' "custom_emoji" e.CustomEmojiID h5]

theorem decodeEntities_encode (es : List MessageEntity) (h : ∀ e ∈ es, ValidEntity e) :
    decodeEntities (es.map encodeMessageEntity) = .ok es := by
  induction es with
  | nil => rfl
  | cons e es ih =>
      simp [decodeEntities, ok_bind,
        decodeEntity_encodeEntity e (h e (by simp)),
        ih (fun x hx => h x (by simp [hx]))]

theorem decodeTextQuote_encodeTextQuote (q : TextQuote) (h : ValidTextQuote q) :
    decodeTextQuote (encodeTextQuote q) = .ok q := by
  obtain ⟨hlen, hents⟩ := h
  have hnot : ¬ (1024 < q.Text.length) := by omega
  by_cases hq : q.Entities = []
  · simp [decodeTextQuote, encodeTextQuote, req, ok_bind, quoteLengthCheck,
      failIf, hnot, hq, getD_omitEmpty]
    rw [← hq]
  · simp [decodeTextQuote, encodeTextQuote, req, ok_bind, quoteLengthCheck,
      failIf, hnot, hq, getD_omitEmpty, decodeEntities_encode q.Entities hents]

theorem decodeRP_encodeRP (rp : ReplyParameters)
    (h : ∀ e ∈ rp.QuoteEntities, ValidEntity e) :
    decodeReplyParameters (encodeReplyParameters rp) = .ok rp := by
  by_cases hq : rp.QuoteEntities = []
  · simp [decodeReplyParameters, encodeReplyParameters, req, ok_bind, hq,
      getD_omitEmpty]
    rw [← hq]
  · simp [decodeReplyParameters, encodeReplyParameters, req, ok_bind, hq,
      getD_omitEmpty, decodeEntities_encode rp.QuoteEntities h]

theorem decodeMO_encodeMO (mo : MessageOrigin) (h : ValidMessageOrigin mo) :
    decodeMessageOrigin (encodeMessageOrigin mo) = .ok mo := by
  cases mo with
  | user m =>
      obtain ⟨mt, md, mu⟩ := m
      have ht : mt = "user" := h
      subst ht
      simp [decodeMessageOrigin, encodeMessageOrigin, req, ok_bind,
        decodeUser_encodeUser]
  | hiddenUser m =>
      obtain ⟨mt, md, mn⟩ := m
      have ht : mt = "hidden_user" := h
      subst ht
      simp [decodeMessageOrigin, encodeMessageOrigin, req, ok_bind]

theorem bind_ne_error {α β : Type} (a : Except DecodeError α)
    (f : α → Except DecodeError β) (E : DecodeError)
    (h1 : a ≠ .error E) (h2 : ∀ x, f x ≠ .error E) : (a >>= f) ≠ .error E := by
  cases a with
  | ok v => simpa [ok_bind] using h2 v
  | error e =>
      intro hc
      rw [error_bind] at hc
      injection hc with h
      exact h1 (by rw [h])

theorem bind_eq_ok {α β : Type} (a : Except DecodeError α)
    (f : α → Except DecodeError β) (b : β) (h : (a >>= f) = .ok b) :
    ∃ x, a = .ok x ∧ f x = .ok b := by
  cases a with
  | ok v => exact ⟨v, rfl, by simpa [ok_bind] using h⟩
  | error e =>
      rw [error_bind] at h
      exact Except.noConfusion h

theorem req_ne_qtl {α : Type} (f : String) (o : Option α) :
    req f o ≠ .error .QuoteTooLong := by
  cases o <;> simp [req]

theorem failIf_ne_qtl (e : DecodeError) (p : Prop) [Decidable p]
    (h : e ≠ .QuoteTooLong) : failIf e p ≠ .error .QuoteTooLong := by
  unfold failIf
  split <;> simp [h]

theorem decodeUser_ne_qtl (w : WireUser) : decodeUser w ≠ .error .QuoteTooLong := by
  unfold decodeUser
  refine bind_ne_error _ _ _ (req_ne_qtl _ _) fun id => ?_
  refine bind_ne_error _ _ _ (req_ne_qtl _ _) fun b => ?_
  refine bind_ne_error _ _ _ (req_ne_qtl _ _) fun f => ?_
  simp

theorem payloadField_ne_qtl (fld t app : String) (o : Option String) :
    payloadField fld t app o ≠ .error .QuoteTooLong := by
  cases o with
  | none => simp [payloadField]
  | some s =>
      simp only [payloadField]
      split <;> simp

theorem payloadUser_ne_qtl (t : String) (o : Option WireUser) :
    payloadUser t o ≠ .error .QuoteTooLong := by
  cases o with
  | none => simp [payloadUser]
  | some wu =>
      simp only [payloadUser]
      split
      · exact decodeUser_ne_qtl wu
      · simp

theorem decodeMessageEntity_ne_qtl (w : WireMessageEntity) :
    decodeMessageEntity w ≠ .error .QuoteTooLong := by
  unfold decodeMessageEntity
  refine bind_ne_error _ _ _ (req_ne_qtl _ _) fun t => ?_
  refine bind_ne_error _ _ _ (failIf_ne_qtl _ _ (by simp)) fun u => ?_
  refine bind_ne_error _ _ _ (req_ne_qtl _ _) fun o => ?_
  refine bind_ne_error _ _ _ (req_ne_qtl _ _) fun l => ?_
  refine bind_ne_error _ _ _ (payloadField_ne_qtl _ _ _ _) fun url => ?_
  refine bind_ne_error _ _ _ (payloadUser_ne_qtl _ _) fun usr => ?_
  refine bind_ne_error _ _ _ (payloadField_ne_qtl _ _ _ _) fun lang => ?_
  refine bind_ne_error _ _ _ (payloadField_ne_qtl _ _ _ _) fun em => ?_
  simp

theorem decodeEntities_ne_qtl (ws : List WireMessageEntity) :
    decodeEntities ws ≠ .error .QuoteTooLong := by
  induction ws with
  | nil => simp [decodeEntities]
  | cons w ws ih =>
      unfold decodeEntities
      refine bind_ne_error _ _ _ (decodeMessageEntity_ne_qtl w) fun e => ?_
      refine bind_ne_error _ _ _ ih fun es => ?_
      simp

theorem decodeTextQuote_long (w : WireTextQuote) (t : String)
    (hw : w.text = some t) (hl : 1024 < t.length) :
    decodeTextQuote w = .error .QuoteTooLong := by
  unfold decodeTextQuote
  rw [hw]
  simp [req, ok_bind, quoteLengthCheck, failIf, hl, error_bind]

theorem decodeTextQuote_short (w : WireTextQuote) (t : String)
    (hw : w.text = some t) (hl : t.length ≤ 1024) :
    decodeTextQuote w ≠ .error .QuoteTooLong := by
  unfold decodeTextQuote
  rw [hw]
  simp only [req, ok_bind]
  have hq : quoteLengthCheck t = .ok () := by
    unfold quoteLengthCheck failIf
    rw [if_neg (by omega)]
  rw [hq, ok_bind]
  refine bind_ne_error _ _ _ ?_ fun es => ?_
  · cases w.entities with
    | none => simp
    | some ws => exact decodeEntities_ne_qtl ws
  · refine bind_ne_error _ _ _ (req_ne_qtl _ _) fun p => ?_
    simp

theorem decodeChat_ok_type (w : WireChat) (c : Chat) (h : decodeChat w = .ok c) :
    c.Type' ∈ chatTypes := by
  unfold decodeChat at h
  cases hw : w.type with
  | none =>
      rw [hw] at h
      simp [req, error_bind] at h
  | some t =>
      rw [hw] at h
      simp only [req, ok_bind] at h
      split at h
      · rename_i hc
        cases hi : w.id with
        | none =>
            rw [hi] at h
            simp [req, error_bind] at h
        | some id =>
            rw [hi] at h
            simp only [req, ok_bind] at h
            injection h with h'
            rw [← h']
            exact hc
      · simp at h

theorem decodeChat_bad_type (w : WireChat) (t : String)
    (hw : w.type = some t) (ht : t ∉ chatTypes) :
    decodeChat w = .error (.ClosedSetViolation "type" t) := by
  unfold decodeChat
  rw [hw]
  simp only [req, ok_bind]
  rw [if_neg ht]

theorem payloadField_ok_type (fld t app : String) (o : Option String) (s : String)
    (h : payloadField fld t app o = .ok s) (ho : o ≠ none) : t = app := by
  cases o with
  | none => exact absurd rfl ho
  | some v =>
      simp only [payloadField] at h
      split at h
      · rename_i ht
        exact ht
      · exact Except.noConfusion h

theorem payloadUser_ok_type (t : String) (o : Option WireUser) (usr : User)
    (h : payloadUser t o = .ok usr) (ho : o ≠ none) : t = "text_mention" := by
  cases o with
  | none => exact absurd rfl ho
  | some wu =>
      simp only [payloadUser] at h
      split at h
      · rename_i ht
        exact ht
      · exact Except.noConfusion h

theorem decodeMessageEntity_ok_payload (w : WireMessageEntity) (ent : MessageEntity)
    (h : decodeMessageEntity w = .ok ent) :
    (w.url ≠ none → ent.Type' = "text_link") ∧
    (w.user ≠ none → ent.Type' = "text_mention") ∧
    (w.language ≠ none → ent.Type' = "pre") ∧
    (w.custom_emoji_id ≠ none → ent.Type' = "custom_emoji") := by
  unfold decodeMessageEntity at h
  obtain ⟨t, hT, h⟩ := bind_eq_ok _ _ _ h
  obtain ⟨v1, hCS, h⟩ := bind_eq_ok _ _ _ h
  obtain ⟨o, hO, h⟩ := bind_eq_ok _ _ _ h
  obtain ⟨l, hL, h⟩ := bind_eq_ok _ _ _ h
  obtain ⟨url, hU, h⟩ := bind_eq_ok _ _ _ h
  obtain ⟨usr, hUs, h⟩ := bind_eq_ok _ _ _ h
  obtain ⟨lang, hLg, h⟩ := bind_eq_ok _ _ _ h
  obtain ⟨em, hEm, h⟩ := bind_eq_ok _ _ _ h
  injection h with h'
  rw [← h']
  exact ⟨fun hp => payloadField_ok_type _ _ _ _ _ hU hp,
    fun hp => payloadUser_ok_type _ _ _ hUs hp,
    fun hp => payloadField_ok_type _ _ _ _ _ hLg hp,
    fun hp => payloadField_ok_type _ _ _ _ _ hEm hp⟩

theorem decodeMessageEntity_misplaced_user (w : WireMessageEntity)
    (wu : WireUser) (o l : Int)
    (hw : w.type = some "text_link") (hu : w.user = some wu)
    (ho : w.offset = some o) (hl : w.length = some l) :
    decodeMessageEntity w = .error (.MisplacedEntityField "user") := by
  unfold decodeMessageEntity
  rw [hw, ho, hl, hu]
  simp only [req, ok_bind]
  have hcs : failIf (DecodeError.ClosedSetViolation "type" "text_link")
      ("text_link" ∉ entityTypes) = .ok () := by
    unfold failIf
    rw [if_neg (by simp [entityTypes])]
  rw [hcs, ok_bind]
  cases hurl : w.url with
  | none =>
      simp only [payloadField, ok_bind]
      simp [payloadUser, error_bind]
  | some s =>
      simp only [payloadField, ok_bind, if_pos rfl]
      simp [payloadUser, ok_bind, error_bind]

theorem checkEntitySpans_ok_iff (L : Int) (i : Nat) (es : List MessageEntity) :
    checkEntitySpans L i es = .ok () ↔
      ∀ e ∈ es, 0 ≤ e.Offset ∧ e.Offset + e.Length ≤ L := by
  induction es generalizing i with
  | nil => simp [checkEntitySpans]
  | cons e es ih =>
      unfold checkEntitySpans
      split
      · rename_i h
        simp [ih, h]
      · rename_i h
        simp [h]

theorem checkEntitySpans_error_shape (L : Int) (es : List MessageEntity)
    (i : Nat) (er : DecodeError) (h : checkEntitySpans L i es = .error er) :
    ∃ j, er = .EntitySpanOutOfRange (i + j) ∧
      ∃ ent, es[j]? = some ent ∧
        ¬(0 ≤ ent.Offset ∧ ent.Offset + ent.Length ≤ L) := by
  induction es generalizing i with
  | nil => simp [checkEntitySpans] at h
  | cons e es ih =>
      unfold checkEntitySpans at h
      split at h
      · rename_i hc
        obtain ⟨j, hj, ent, hent, hbad⟩ := ih (i + 1) h
        refine ⟨j + 1, ?_, ent, ?_, hbad⟩
        · rw [hj]
          congr 1
          omega
        · simpa using hent
      · rename_i hc
        injection h with h'
        refine ⟨0, ?_, e, by simp, hc⟩
        rw [← h']
        simp

/-- C1 (counterexample): the declared model does not make "absent"
distinguishable from "present with zero value" at decode time — a wire
payload with `is_premium` absent and one with `is_premium` explicitly false
decode to the very same `User` value. -/
theorem decodeUser_conflates_absent_premium :
    decodeUser ⟨some 7, some false, some "Ann", none, none, none, none, none,
        none, none, none, none, none⟩ =
      decodeUser ⟨some 7, some false, some "Ann", none, none, none, some false,
        none, none, none, none, none, none⟩ ∧
    (⟨some 7, some false, some "Ann", none, none, none, none, none, none, none,
        none, none, none⟩ : WireUser).is_premium = none ∧
    (⟨some 7, some false, some "Ann", none, none, none, some false, none, none,
        none, none, none, none⟩ : WireUser).is_premium = some false :=
  ⟨rfl, rfl, rfl⟩

/-- C1 (amended): the optional fields of the declared model are plain value
types, so they cannot represent three states: every decode into `User`
conflates at least two of the three wire states of a Boolean optional field,
and the zero-defaulting decode maps an absent `is_premium` and an explicit
zero `is_premium` to the same result. -/
theorem optional_bool_three_states_impossible :
    (∀ f : Option Bool → User,
      (f none).IsPremium = (f (some false)).IsPremium ∨
      (f none).IsPremium = (f (some true)).IsPremium ∨
      (f (some false)).IsPremium = (f (some true)).IsPremium) ∧
    (∀ w : WireUser,
      decodeUser w =
        decodeUser {w with is_premium := some (w.is_premium.getD false)}) := by
  constructor
  · intro f
    cases h1 : (f none).IsPremium <;> cases h2 : (f (some false)).IsPremium <;>
      cases h3 : (f (some true)).IsPremium <;> simp [h1, h2, h3]
  · intro w
    unfold decodeUser
    cases hp : w.is_premium <;> simp [hp]

/-- C2: for every MaybeInaccessibleMessage payload whose decoded `date` field
is present, a `date` of exactly zero resolves to the InaccessibleMessage
variant and any nonzero `date` resolves to the live-message variant. -/
theorem maybeInaccessible_resolution :
    ∀ (w : WireInaccessibleMessage) (d : Int), w.date = some d →
      (d = 0 → resolveMaybeInaccessible w = .ok .inaccessibleMessage) ∧
      (d ≠ 0 → resolveMaybeInaccessible w = .ok .message) := by
  intro w d hw
  constructor
  · intro h0
    simp [resolveMaybeInaccessible, hw, h0]
  · intro hn
    simp [resolveMaybeInaccessible, hw, hn]

/-- C2 (witness): the resolution rule evaluated at the concrete dates 0, 1,
2^31 - 1 and 2^31. -/
theorem maybeInaccessible_resolution_witness :
    resolveMaybeInaccessible ⟨none, none, some 0⟩ = .ok .inaccessibleMessage ∧
    resolveMaybeInaccessible ⟨none, none, some 1⟩ = .ok .message ∧
    resolveMaybeInaccessible ⟨none, none, some (2 ^ 31 - 1)⟩ = .ok .message ∧
    resolveMaybeInaccessible ⟨none, none, some (2 ^ 31)⟩ = .ok .message :=
  ⟨(maybeInaccessible_resolution _ 0 rfl).1 rfl,
   (maybeInaccessible_resolution _ 1 rfl).2 (by norm_num),
   (maybeInaccessible_resolution _ (2 ^ 31 - 1) rfl).2 (by norm_num),
   (maybeInaccessible_resolution _ (2 ^ 31) rfl).2 (by norm_num)⟩

/-- C3: decoding a MessageOrigin payload with an unknown discriminator fails
with `UnknownVariant` carrying the raw discriminator, and the hidden_user
payload of the spec decodes to a MessageOriginHiddenUser carrying exactly the
given date and sender user name. -/
theorem messageOrigin_unknown_variant :
    (∀ (w : WireMessageOrigin) (t : String), w.type = some t →
        t ≠ "user" → t ≠ "hidden_user" →
        decodeMessageOrigin w = .error (.UnknownVariant t)) ∧
    decodeMessageOrigin ⟨some "hidden_user", some 1700000000, none, some "Anon"⟩ =
      .ok (.hiddenUser ⟨"hidden_user", 1700000000, "Anon"⟩) := by
  constructor
  · intro w t hw h1 h2
    simp [decodeMessageOrigin, hw, h1, h2]
  · rfl

/-- C3 (witness): the unknown discriminator "alien" at a concrete payload. -/
theorem messageOrigin_unknown_variant_witness :
    decodeMessageOrigin ⟨some "alien", some 1, none, none⟩ =
      .error (.UnknownVariant "alien") :=
  messageOrigin_unknown_variant.1 _ "alien" rfl (by decide) (by decide)

/-- C4: decode after encode is the identity, field for field, for every
entity type of the model whose value satisfies the model invariants the
decoder enforces (closed-set chat type, entity payload applicability, quote
length bound, origin tag). -/
theorem roundtrip_all_entities :
    (∀ u : User, decodeUser (encodeUser u) = .ok u) ∧
    (∀ c : Chat, c.Type' ∈ chatTypes → decodeChat (encodeChat c) = .ok c) ∧
    (∀ m : MessageID, decodeMessageID (encodeMessageID m) = .ok m) ∧
    (∀ im : InaccessibleMessage, im.Chat.Type' ∈ chatTypes →
      decodeInaccessibleMessage (encodeInaccessibleMessage im) = .ok im) ∧
    (∀ e : MessageEntity, ValidEntity e →
      decodeMessageEntity (encodeMessageEntity e) = .ok e) ∧
    (∀ q : TextQuote, ValidTextQuote q →
      decodeTextQuote (encodeTextQuote q) = .ok q) ∧
    (∀ rp : ReplyParameters, (∀ e ∈ rp.QuoteEntities, ValidEntity e) →
      decodeReplyParameters (encodeReplyParameters rp) = .ok rp) ∧
    (∀ mo : MessageOrigin, ValidMessageOrigin mo →
      decodeMessageOrigin (encodeMessageOrigin mo) = .ok mo) :=
  ⟨decodeUser_encodeUser, decodeChat_encodeChat, decodeMessageID_encodeMessageID,
   decodeIM_encodeIM, decodeEntity_encodeEntity, decodeTextQuote_encodeTextQuote,
   decodeRP_encodeRP, decodeMO_encodeMO⟩

/-- C4 (witness): one concrete round trip per entity type. -/
theorem roundtrip_all_entities_witness :
    decodeUser (encodeUser ⟨7, false, "Ann", "", "", "en", false, false, false,
        false, false, false, false⟩) =
      .ok ⟨7, false, "Ann", "", "", "en", false, false, false, false, false,
        false, false⟩ ∧
    decodeChat (encodeChat ⟨5, "private", "", "bob", "", "", false⟩) =
      .ok ⟨5, "private", "", "bob", "", "", false⟩ ∧
    decodeMessageID (encodeMessageID ⟨99⟩) = .ok ⟨99⟩ ∧
    decodeInaccessibleMessage (encodeInaccessibleMessage
        ⟨⟨5, "group", "", "", "", "", false⟩, 3, 0⟩) =
      .ok ⟨⟨5, "group", "", "", "", "", false⟩, 3, 0⟩ ∧
    decodeMessageEntity (encodeMessageEntity ⟨"bold", 0, 4, "", zeroUser, "", ""⟩) =
      .ok ⟨"bold", 0, 4, "", zeroUser, "", ""⟩ ∧
    decodeTextQuote (encodeTextQuote ⟨"hi", [], 2, true⟩) = .ok ⟨"hi", [], 2, true⟩ ∧
    decodeReplyParameters (encodeReplyParameters ⟨1, "@chan", false, "", "", [], 0⟩) =
      .ok ⟨1, "@chan", false, "", "", [], 0⟩ ∧
    decodeMessageOrigin (encodeMessageOrigin (.hiddenUser ⟨"hidden_user", 1, "Anon"⟩)) =
      .ok (.hiddenUser ⟨"hidden_user", 1, "Anon"⟩) :=
  ⟨roundtrip_all_entities.1 _,
   roundtrip_all_entities.2.1 _ (by decide),
   roundtrip_all_entities.2.2.1 _,
   roundtrip_all_entities.2.2.2.1 _ (by decide),
   roundtrip_all_entities.2.2.2.2.1 _ (by decide),
   roundtrip_all_entities.2.2.2.2.2.1 _ (by decide),
   roundtrip_all_entities.2.2.2.2.2.2.1 _ (by simp),
   roundtrip_all_entities.2.2.2.2.2.2.2 _ rfl⟩

/-- C5: every successfully decoded Chat has its `type` in the closed set
{private, group, supergroup, channel}, and a payload whose `type` lies
outside the set decodes to a `ClosedSetViolation` error. -/
theorem chat_type_closed_set :
    (∀ (w : WireChat) (c : Chat), decodeChat w = .ok c → c.Type' ∈ chatTypes) ∧
    (∀ (w : WireChat) (t : String), w.type = some t → t ∉ chatTypes →
      decodeChat w = .error (.ClosedSetViolation "type" t)) :=
  ⟨decodeChat_ok_type, decodeChat_bad_type⟩

/-- C5 (witness): a valid chat type and the out-of-set type "cult" at
concrete payloads. -/
theorem chat_type_closed_set_witness :
    ((⟨5, "private", "", "", "", "", false⟩ : Chat).Type' ∈ chatTypes) ∧
    decodeChat ⟨some 5, some "cult", none, none, none, none, none⟩ =
      .error (.ClosedSetViolation "type" "cult") :=
  ⟨chat_type_closed_set.1 ⟨some 5, some "private", none, none, none, none, none⟩
      _ rfl,
   chat_type_closed_set.2 _ "cult" rfl (by decide)⟩

/-- C6: the text-entity resolver succeeds exactly when every span satisfies
0 ≤ offset and offset + length ≤ textLength, fails with
`EntitySpanOutOfRange` naming the offending entity index otherwise, and on a
10-code-unit text the span (5,3) passes while (8,5) fails at index 0. -/
theorem entity_span_validation :
    (∀ (L : Int) (es : List MessageEntity),
      checkEntitySpans L 0 es = .ok () ↔
        ∀ e ∈ es, 0 ≤ e.Offset ∧ e.Offset + e.Length ≤ L) ∧
    (∀ (L : Int) (es : List MessageEntity) (er : DecodeError),
      checkEntitySpans L 0 es = .error er →
        ∃ j, er = .EntitySpanOutOfRange j ∧
          ∃ ent, es[j]? = some ent ∧
            ¬(0 ≤ ent.Offset ∧ ent.Offset + ent.Length ≤ L)) ∧
    resolveEntities "0123456789" [⟨"bold", 5, 3, "", zeroUser, "", ""⟩] = .ok () ∧
    resolveEntities "0123456789" [⟨"bold", 8, 5, "", zeroUser, "", ""⟩] =
      .error (.EntitySpanOutOfRange 0) := by
  refine ⟨fun L es => checkEntitySpans_ok_iff L 0 es, ?_, rfl, rfl⟩
  intro L es er h
  obtain ⟨j, hj, hrest⟩ := checkEntitySpans_error_shape L es 0 er h
  exact ⟨j, by simpa using hj, hrest⟩

/-- C6 (witness): the success equivalence applied at the concrete bound 10
with the concrete span (5,3). -/
theorem entity_span_validation_witness :
    checkEntitySpans 10 0 [⟨"bold", 5, 3, "", zeroUser, "", ""⟩] = .ok () :=
  (entity_span_validation.1 10 [⟨"bold", 5, 3, "", zeroUser, "", ""⟩]).2
    (by decide)

/-- C7: a variant-only payload field present alongside a `type` it is not
applicable to yields a `MisplacedEntityField` error rather than being
silently dropped — on success each present payload field forces the matching
type, and a text_link entity with a populated user field fails. -/
theorem misplaced_entity_field :
    (∀ (w : WireMessageEntity) (ent : MessageEntity),
      decodeMessageEntity w = .ok ent →
        (w.url ≠ none → ent.Type' = "text_link") ∧
        (w.user ≠ none → ent.Type' = "text_mention") ∧
        (w.language ≠ none → ent.Type' = "pre") ∧
        (w.custom_emoji_id ≠ none → ent.Type' = "custom_emoji")) ∧
    (∀ (w : WireMessageEntity) (wu : WireUser) (o l : Int),
      w.type = some "text_link" → w.user = some wu →
      w.offset = some o → w.length = some l →
      decodeMessageEntity w = .error (.MisplacedEntityField "user")) :=
  ⟨decodeMessageEntity_ok_payload, decodeMessageEntity_misplaced_user⟩

/-- C7 (witness): the text_link entity with a populated user field at a
concrete payload. -/
theorem misplaced_entity_field_witness :
    decodeMessageEntity ⟨some "text_link", some 0, some 2, none,
        some (encodeUser zeroUser), none, none⟩ =
      .error (.MisplacedEntityField "user") :=
  misplaced_entity_field.2 _ (encodeUser zeroUser) 0 2 rfl rfl rfl rfl

/-- C8: a TextQuote whose decoded text exceeds 1024 characters fails with
`QuoteTooLong` irrespective of the remaining fields (`isManual` included),
and a text of at most 1024 characters never produces `QuoteTooLong`. -/
theorem quote_too_long :
    (∀ (w : WireTextQuote) (t : String), w.text = some t → 1024 < t.length →
      decodeTextQuote w = .error .QuoteTooLong) ∧
    (∀ (w : WireTextQuote) (t : String), w.text = some t → t.length ≤ 1024 →
      decodeTextQuote w ≠ .error .QuoteTooLong) :=
  ⟨decodeTextQuote_long, decodeTextQuote_short⟩

set_option maxRecDepth 8192 in
/-- C8 (witness): a 1025-character text fails for both values of is_manual,
and a short text passes the length check. -/
theorem quote_too_long_witness :
    decodeTextQuote ⟨some (String.mk (List.replicate 1025 'a')), none, some 0,
        some true⟩ = .error .QuoteTooLong ∧
    decodeTextQuote ⟨some (String.mk (List.replicate 1025 'a')), none, some 0,
        some false⟩ = .error .QuoteTooLong ∧
    decodeTextQuote ⟨some "ok", none, some 0, none⟩ ≠ .error .QuoteTooLong :=
  ⟨quote_too_long.1 _ _ rfl (by decide),
   quote_too_long.1 _ _ rfl (by decide),
   quote_too_long.2 _ _ rfl (by decide)⟩

/-- C9 (counterexample): `ReplyParameters.ChatID` is declared `string` in
types.go, not a 64-bit integer type, and the field holds non-numeric channel
usernames. -/
theorem replyParameters_chatID_is_string :
    ("ReplyParameters.ChatID", "string") ∈ idFieldDecls ∧
    "string" ≠ "int64" ∧
    ({MessageID := 1, ChatID := "@channelusername",
      AllowSendingWithoutReply := false, Quote := "", QuoteParseMode := "",
      QuoteEntities := [], QuotePosition := 0} : ReplyParameters).ChatID =
      "@channelusername" :=
  ⟨by decide, by decide, rfl⟩

/-- C9 (amended): every listed ID field except `ReplyParameters.ChatID` is
declared with the explicit fixed-width type int64; `ReplyParameters.ChatID`
alone is declared string, the source's provisional stand-in for the protocol's
integer-or-string union. -/
theorem id_fields_declared_widths :
    (idFieldDecls.all fun p =>
      p.1 == "ReplyParameters.ChatID" || p.2 == "int64") = true ∧
    ("ReplyParameters.ChatID", "string") ∈ idFieldDecls := by
  decide

/-- C10: every numeric field declared in the model resolves to the concrete
declared type int64, with the single exception of
`ReplyParameters.QuotePosition`, whose declared type name `Integer` is
defined neither by the package nor by Go itself — unlike
`TextQuote.Position`, which is int64. -/
theorem numeric_field_types_resolve :
    (numericFieldDecls.all fun p =>
      p.1 == "ReplyParameters.QuotePosition" || p.2 == "int64") = true ∧
    ("ReplyParameters.QuotePosition", "Integer") ∈ numericFieldDecls ∧
    ("TextQuote.Position", "int64") ∈ numericFieldDecls ∧
    "Integer" ∉ packageDefinedTypes ∧
    "Integer" ∉ goPredeclaredTypes := by
  decide

end Telegram
